import Mathlib

/-!
Verification of the Pong core (paddle/ball physics, collision resolution,
AI controller, match orchestration) against its natural-language design
description.

The Python source is shallowly embedded over an arbitrary linear ordered
field `α` (instantiated at `ℚ` for executable checks and at `ℝ` where the
trigonometric speed-rescale step matters).  Python floats are idealised as
exact field elements; `pygame.Rect` coordinates, which are machine
integers obtained by truncating floats toward zero, are modelled by
`trunc : α → ℤ`.  The trigonometric primitives `math.cos`, `math.sin`,
`math.atan2` are passed as an explicit operation bundle `Trig α` so that
the purely arithmetic parts of the code stay executable; the real
instantiation `realTrig` uses Mathlib's `Real.cos`, `Real.sin` and a
faithful `atan2`.

Source constants (src/pong/constants.py):
  WINDOW_WIDTH = 800, WINDOW_HEIGHT = 600
  PADDLE_WIDTH = 10, PADDLE_HEIGHT = 100, PADDLE_SPEED = 5, PADDLE_OFFSET = 50
  BALL_SIZE = 10, BALL_INITIAL_SPEED = 5, BALL_MAX_SPEED = 10,
  BALL_SPEED_INCREMENT = 0.5
  WINNING_SCORE = 10, ANGLE_FACTOR = 0.05
  AI_SPEED = 4, AI_REACTION_ZONE = 30
  AI_AGGRESSIVE_OFFSET = 80, AI_BALL_REACTIVE_FORWARD_OFFSET = 100,
  AI_BALL_REACTIVE_BACK_OFFSET = 150
  DOUBLES_PADDLE_HEIGHT = 80, DOUBLES_PADDLE_OFFSET_X = 60,
  DOUBLES_PADDLE_SPACING_Y = 100
These are written as literals below, with a comment naming the constant at
each use site.
-/

set_option linter.unusedSectionVars false
set_option linter.unnecessarySeqFocus false

namespace Pong

variable {α : Type*} [LinearOrderedField α] [FloorRing α]

/-- Truncation toward zero, as performed by `pygame.Rect` when given float
coordinates. -/
def trunc (x : α) : ℤ := if x < 0 then ⌈x⌉ else ⌊x⌋

/-- An integer rectangle, as `pygame.Rect` (left, top, width, height). -/
structure IntRect where
  left : ℤ
  top : ℤ
  w : ℤ
  h : ℤ
  deriving DecidableEq

/-- Python `pygame.Rect.colliderect`: true iff the rectangles strictly overlap
(touching edges do not collide). -/
def colliderect (A B : IntRect) : Prop :=
  A.left < B.left + B.w ∧ A.top < B.top + B.h ∧
  B.left < A.left + A.w ∧ B.top < A.top + A.h

instance (A B : IntRect) : Decidable (colliderect A B) := by
  unfold colliderect; infer_instance

/-- The trigonometric primitives used by `ball.py` (`math.cos`, `math.sin`,
`math.atan2`), passed explicitly so the arithmetic core stays executable. -/
structure Trig (α : Type*) where
  cos : α → α
  sin : α → α
  atan2 : α → α → α

/-! ### Paddle (src/pong/paddle.py) -/

structure Paddle (α : Type*) where
  x : α
  y : α
  width : ℤ
  height : ℤ
  speed : α
  velocity_y : α
  velocity_x : α
  min_x : α
  max_x : α
  deriving DecidableEq

namespace Paddle

/-- Python `Paddle.__init__` with default bounds (`min_x=0`, `max_x=WINDOW_WIDTH`). -/
def createStd (x y : α) : Paddle α :=
  { x := x, y := y
    width := 10      -- PADDLE_WIDTH
    height := 100    -- PADDLE_HEIGHT
    speed := 5       -- PADDLE_SPEED
    velocity_y := 0, velocity_x := 0
    min_x := 0, max_x := 800 }  -- default max_x = WINDOW_WIDTH

/-- Python `Paddle.__init__` with explicit horizontal bounds (doubles mode). -/
def createBounded (x y mnx mxx : α) : Paddle α :=
  { createStd x y with min_x := mnx, max_x := mxx }

/-- Python `Paddle.rect` property. -/
def rect (p : Paddle α) : IntRect :=
  ⟨trunc p.x, trunc p.y, p.width, p.height⟩

/-- Python `Paddle.center_y` property (`y + height / 2`, Python true division). -/
def center_y (p : Paddle α) : α := p.y + (p.height : α) / 2

/-- Python `Paddle.center_x` property (`x + width / 2`). -/
def center_x (p : Paddle α) : α := p.x + (p.width : α) / 2

/-- Python `Paddle.stop_y`. -/
def stop_y (p : Paddle α) : Paddle α := { p with velocity_y := 0 }

/-- Python `Paddle.stop_x`. -/
def stop_x (p : Paddle α) : Paddle α := { p with velocity_x := 0 }

/-- Python `Paddle.stop` (zeroes both components). -/
def stop (p : Paddle α) : Paddle α := { p with velocity_y := 0, velocity_x := 0 }

/-- Python `Paddle.update`: integrate velocity, then clamp y into
`[0, WINDOW_HEIGHT - height]` and x into `[min_x, max_x - width]`. -/
def update (p : Paddle α) : Paddle α :=
  let y := p.y + p.velocity_y
  let x := p.x + p.velocity_x
  let y2 : α :=
    if y < 0 then 0
    else if y + (p.height : α) > 600 then 600 - (p.height : α)  -- WINDOW_HEIGHT
    else y
  let x2 : α :=
    if x < p.min_x then p.min_x
    else if x + (p.width : α) > p.max_x then p.max_x - (p.width : α)
    else x
  { p with x := x2, y := y2 }

/-- Python `Paddle.reset`: reposition and zero both velocity components. -/
def reset (p : Paddle α) (x y : α) : Paddle α :=
  { p with x := x, y := y, velocity_y := 0, velocity_x := 0 }

end Paddle

/-! ### Ball (src/pong/ball.py) -/

structure Ball (α : Type*) where
  x : α
  y : α
  size : ℤ
  speed : α
  vx : α
  vy : α
  deriving DecidableEq

namespace Ball

/-- Python `Ball.rect` property: `Rect(x - size // 2, y - size // 2, size, size)`.
`size // 2` is Python integer floor division; `size` is nonnegative in every
state the program builds, where it agrees with `Int` division. -/
def rect (b : Ball α) : IntRect :=
  ⟨trunc (b.x - ((b.size / 2 : ℤ) : α)), trunc (b.y - ((b.size / 2 : ℤ) : α)),
   b.size, b.size⟩

/-- Python `Ball.reset_velocity`: reset speed to BALL_INITIAL_SPEED and relaunch at
a random angle.  The random draws `random.uniform(-π/4, π/4)` and
`random.choice([-1, 1])` are passed in as `angle` and `dirLeft`
(`dirLeft = true` encodes the draw `-1`). -/
def reset_velocity (t : Trig α) (angle : α) (dirLeft : Bool) (b : Ball α) :
    Ball α :=
  let speed : α := 5  -- BALL_INITIAL_SPEED
  let direction : α := if dirLeft then -1 else 1
  { b with speed := speed
           vx := direction * speed * t.cos angle
           vy := speed * t.sin angle }

/-- Python `Ball.__init__`: position, BALL_SIZE, BALL_INITIAL_SPEED, then
`reset_velocity`. -/
def create (t : Trig α) (angle : α) (dirLeft : Bool) (x y : α) : Ball α :=
  reset_velocity t angle dirLeft
    { x := x, y := y
      size := 10   -- BALL_SIZE
      speed := 5   -- BALL_INITIAL_SPEED
      vx := 0, vy := 0 }

/-- Python `Ball.update`: integrate velocity, then bounce off the top and bottom
walls (`y - size//2 <= 0` and `y + size//2 >= WINDOW_HEIGHT`), clamping y to
the edge-adjusted value and negating vy. -/
def update (b : Ball α) : Ball α :=
  let x := b.x + b.vx
  let y := b.y + b.vy
  let s2 : α := ((b.size / 2 : ℤ) : α)
  if y - s2 ≤ 0 then { b with x := x, y := s2, vy := -b.vy }
  else if y + s2 ≥ 600 then { b with x := x, y := 600 - s2, vy := -b.vy }
  else { b with x := x, y := y }

/-- Python `Ball.check_paddle_collision`.  Returns the updated ball and the boolean
result.  Mirrors the source: bounding-box test, side determination, the
anti-stick tie-break, angle reshaping, capped speed increment with
angle-preserving rescale, and repositioning just outside the struck face. -/
def check_paddle_collision (t : Trig α) (b : Ball α) (p : Paddle α) :
    Ball α × Bool :=
  if ¬ colliderect b.rect p.rect then (b, false)
  else
    -- hit_from_left = ball_center_x < paddle_center_x
    let hit_from_left := b.x < p.center_x
    if hit_from_left ∧ b.vx < 0 then (b, false)
    else if ¬ hit_from_left ∧ 0 < b.vx then (b, false)
    else
      -- relative_hit = (y - paddle.center_y) / (paddle.height / 2)
      let relative_hit := (b.y - p.center_y) / ((p.height : α) / 2)
      let vx1 := -b.vx
      -- vy += relative_hit * speed * ANGLE_FACTOR * 10, ANGLE_FACTOR = 0.05
      let vy1 := b.vy + relative_hit * b.speed * (1 / 20) * 10
      -- new_speed = min(speed + BALL_SPEED_INCREMENT, BALL_MAX_SPEED)
      let new_speed := min (b.speed + 1 / 2) 10
      -- reposition just outside the struck face: paddle_left - size//2 - 1
      -- or paddle_right + size//2 + 1
      let x2 : α :=
        if hit_from_left then p.x - ((b.size / 2 : ℤ) : α) - 1
        else p.x + (p.width : α) + ((b.size / 2 : ℤ) : α) + 1
      if new_speed > b.speed then
        -- current_angle = atan2(vy, abs(vx)); direction = sign of vx
        let current_angle := t.atan2 vy1 |vx1|
        let direction : α := if 0 < vx1 then 1 else -1
        ({ b with x := x2, speed := new_speed,
                  vx := direction * new_speed * t.cos current_angle,
                  vy := new_speed * t.sin current_angle }, true)
      else
        ({ b with x := x2, vx := vx1, vy := vy1 }, true)

/-- Python `Ball.is_out_left`: `x + size // 2 < 0`. -/
def is_out_left (b : Ball α) : Prop := b.x + ((b.size / 2 : ℤ) : α) < 0

instance (b : Ball α) : Decidable b.is_out_left := by
  unfold is_out_left; infer_instance

/-- Python `Ball.is_out_right`: `x - size // 2 > WINDOW_WIDTH`. -/
def is_out_right (b : Ball α) : Prop := b.x - ((b.size / 2 : ℤ) : α) > 800

instance (b : Ball α) : Decidable b.is_out_right := by
  unfold is_out_right; infer_instance

/-- Python `Ball.reset`: reposition and relaunch. -/
def reset (t : Trig α) (angle : α) (dirLeft : Bool) (b : Ball α) (x y : α) :
    Ball α :=
  reset_velocity t angle dirLeft { b with x := x, y := y }

end Ball

/-! ### AI player (src/pong/ai.py) -/

/-- Python `AIStrategy` enum. -/
inductive AIStrategy where
  | DEFENSIVE
  | BALANCED
  | AGGRESSIVE
  | BALL_REACTIVE
  deriving DecidableEq

/-- Difficulty levels (the `difficulty` string argument). -/
inductive Difficulty where
  | easy
  | medium
  | hard
  deriving DecidableEq

/-- Defensive zone tag for doubles mode (the `zone` string argument). -/
inductive Zone where
  | top
  | bottom
  deriving DecidableEq

/-- The AI controller state.  The Python object also holds a reference to
the paddle it drives; here the paddle is passed explicitly to `update`. -/
structure AIPlayer (α : Type*) where
  difficulty : Difficulty
  doubles_mode : Bool
  zone : Option Zone
  zone_center_y : Option α
  strategy : AIStrategy
  speed : α
  reaction_zone : α
  deriving DecidableEq

namespace AIPlayer

/-- Python `AIPlayer._set_difficulty_params` table:
easy = (AI_SPEED - 1, AI_REACTION_ZONE + 20),
hard = (AI_SPEED + 1, AI_REACTION_ZONE - 15),
medium = (AI_SPEED, AI_REACTION_ZONE), with AI_SPEED = 4,
AI_REACTION_ZONE = 30. -/
def difficultyParams : Difficulty → α × α
  | .easy => (4 - 1, 30 + 20)
  | .hard => (4 + 1, 30 - 15)
  | .medium => (4, 30)

/-- Python `AIPlayer.__init__`: default strategy BALANCED, speed and reaction zone
derived from the difficulty. -/
def create (difficulty : Difficulty) (doubles_mode : Bool)
    (zone : Option Zone) (zone_center_y : Option α) : AIPlayer α :=
  { difficulty := difficulty
    doubles_mode := doubles_mode
    zone := zone
    zone_center_y := zone_center_y
    strategy := .BALANCED
    speed := (difficultyParams difficulty).1
    reaction_zone := (difficultyParams difficulty).2 }

/-- Python `AIPlayer.randomize_strategy`: the random draw is passed in. -/
def randomize_strategy (ai : AIPlayer α) (s : AIStrategy) : AIPlayer α :=
  { ai with strategy := s }

/-- Python `AIPlayer._calculate_target_x`: target X from the current strategy.
`on_right_side = paddle.x > WINDOW_WIDTH // 2`. -/
def calculate_target_x (ai : AIPlayer α) (ball : Ball α) (p : Paddle α) : α :=
  let on_right_side := p.x > 400  -- WINDOW_WIDTH // 2
  match ai.strategy with
  | .DEFENSIVE =>
      -- WINDOW_WIDTH - DOUBLES_PADDLE_OFFSET_X - PADDLE_WIDTH / offset
      if on_right_side then 800 - 60 - 10 else 60
  | .BALANCED =>
      -- (WINDOW_WIDTH // 2 + WINDOW_WIDTH) // 2 = 600 ; WINDOW_WIDTH // 4
      if on_right_side then 600 else 200
  | .AGGRESSIVE =>
      -- WINDOW_WIDTH // 2 ± AI_AGGRESSIVE_OFFSET
      if on_right_side then 400 + 80 else 400 - 80
  | .BALL_REACTIVE =>
      if on_right_side then
        -- toward: 400 + AI_BALL_REACTIVE_FORWARD_OFFSET,
        -- away: WINDOW_WIDTH - AI_BALL_REACTIVE_BACK_OFFSET
        if ball.vx < 0 then 400 + 100 else 800 - 150
      else
        if ball.vx > 0 then 400 - 100 else 150

/-- Python `AIPlayer.update`: the per-tick decision applied to the driven paddle.
Returns the paddle with its velocity intent set. -/
def update (ai : AIPlayer α) (ball : Ball α) (p : Paddle α) : Paddle α :=
  if ai.doubles_mode then
    -- Y axis: zone-based positioning
    let p1 :=
      match ai.zone, ai.zone_center_y with
      | some z, some zcy =>
          -- zone_height = 150; ball in zone → track it, else return to center
          let target_y :=
            match z with
            | .top => if ball.y < zcy + 150 / 2 then ball.y else zcy
            | .bottom => if ball.y > zcy - 150 / 2 then ball.y else zcy
          let diff_y := target_y - p.center_y
          if |diff_y| < ai.reaction_zone then p.stop_y
          else if diff_y < 0 then { p with velocity_y := -ai.speed }
          else { p with velocity_y := ai.speed }
      | _, _ =>
          let diff_y := ball.y - p.center_y
          if |diff_y| < ai.reaction_zone then p.stop_y
          else if diff_y < 0 then { p with velocity_y := -ai.speed }
          else { p with velocity_y := ai.speed }
    -- X axis: strategy-based positioning
    let target_x := ai.calculate_target_x ball p1
    let diff_x := target_x - p1.center_x
    if |diff_x| < ai.reaction_zone then p1.stop_x
    else if diff_x < 0 then { p1 with velocity_x := -ai.speed }
    else { p1 with velocity_x := ai.speed }
  else
    -- Standard 1D movement (Y axis only)
    let diff := ball.y - p.center_y
    if |diff| < ai.reaction_zone then p.stop
    else if diff < 0 then { p with velocity_y := -ai.speed }
    else { p with velocity_y := ai.speed }

end AIPlayer

/-! ### Game orchestration (src/pong/game.py)

Randomness (ball relaunch angle/direction, strategy reassignment) is passed
in as an explicit `RandomDraw`.  In Python, `paddle_left`/`paddle_right` are
references that alias `paddle_left_top`/`paddle_right_top` in doubles mode;
the model keeps the alias fields equal by writing them together. -/

inductive GameMode where
  | ONE_PLAYER
  | TWO_PLAYER
  | DOUBLES
  deriving DecidableEq

inductive GameState where
  | MENU
  | PLAYING
  | PAUSED
  | GAME_OVER
  deriving DecidableEq

/-- One batch of random draws consumed by a call that may relaunch the ball
(`random.uniform(-π/4, π/4)`, `random.choice([-1, 1])`) and reassign the AI
strategies (`random.choice(list(AIStrategy))`, once per live controller). -/
structure RandomDraw (α : Type*) where
  angle : α
  dirLeft : Bool
  strat_top : AIStrategy
  strat_bottom : AIStrategy

structure Game (α : Type*) where
  state : GameState
  mode : GameMode
  score_left : ℕ
  score_right : ℕ
  paddle_left : Paddle α
  paddle_right : Paddle α
  paddle_left_top : Option (Paddle α)
  paddle_left_bottom : Option (Paddle α)
  paddle_right_top : Option (Paddle α)
  paddle_right_bottom : Option (Paddle α)
  ai : AIPlayer α
  ai_bottom : Option (AIPlayer α)
  ball : Ball α
  deriving DecidableEq

namespace Game

/-- Python `Game._init_game_objects`: build the paddle/controller/ball set for the
current mode. -/
def init_game_objects (t : Trig α) (r : RandomDraw α) (g : Game α) : Game α :=
  if g.mode = .DOUBLES then
    -- center_y = WINDOW_HEIGHT // 2 = 300
    -- left team, confined to [0, WINDOW_WIDTH // 2]; DOUBLES_PADDLE_OFFSET_X
    -- = 60, DOUBLES_PADDLE_SPACING_Y = 100, DOUBLES_PADDLE_HEIGHT = 80
    let plt : Paddle α :=
      { Paddle.createBounded 60 (300 - 100) 0 400 with height := 80 }
    let plb : Paddle α :=
      { Paddle.createBounded 60 (300 + 100 - 80) 0 400 with height := 80 }
    -- right team, confined to [WINDOW_WIDTH // 2, WINDOW_WIDTH];
    -- x = WINDOW_WIDTH - DOUBLES_PADDLE_OFFSET_X - PADDLE_WIDTH = 730
    let prt : Paddle α :=
      { Paddle.createBounded 730 (300 - 100) 400 800 with height := 80 }
    let prb : Paddle α :=
      { Paddle.createBounded 730 (300 + 100 - 80) 400 800 with height := 80 }
    { g with
      paddle_left_top := some plt
      paddle_left_bottom := some plb
      paddle_right_top := some prt
      paddle_right_bottom := some prb
      -- compatibility aliases: paddle_left is paddle_left_top, etc.
      paddle_left := plt
      paddle_right := prt
      -- top AI defends the upper zone, center 300 - 100 // 2 = 250
      ai := AIPlayer.create .medium true (some .top) (some 250)
      -- bottom AI defends the lower zone, center 300 + 100 // 2 = 350
      ai_bottom := some (AIPlayer.create .medium true (some .bottom) (some 350))
      ball := Ball.create t r.angle r.dirLeft 400 300 }
  else
    -- paddle_y = (WINDOW_HEIGHT - PADDLE_HEIGHT) // 2 = 250; PADDLE_OFFSET
    -- = 50, so x_left = 50 and x_right = 800 - 50 - 10 = 740
    { g with
      paddle_left := Paddle.createStd 50 250
      paddle_right := Paddle.createStd 740 250
      paddle_left_top := none
      paddle_left_bottom := none
      paddle_right_top := none
      paddle_right_bottom := none
      ai := AIPlayer.create .medium false none none
      ai_bottom := none
      ball := Ball.create t r.angle r.dirLeft 400 300 }

/-- Python `Game.set_mode`: records the mode (and nothing else). -/
def set_mode (g : Game α) (mode : GameMode) : Game α := { g with mode := mode }

/-- Python `Game._reset_positions`: reposition all paddles and relaunch the ball. -/
def reset_positions (t : Trig α) (r : RandomDraw α) (g : Game α) : Game α :=
  let g1 :=
    if g.mode = .DOUBLES then
      let plt := g.paddle_left_top.map (fun p => p.reset 60 (300 - 100))
      let plb := g.paddle_left_bottom.map (fun p => p.reset 60 (300 + 100 - 80))
      let prt := g.paddle_right_top.map (fun p => p.reset 730 (300 - 100))
      let prb := g.paddle_right_bottom.map (fun p => p.reset 730 (300 + 100 - 80))
      { g with
        paddle_left_top := plt, paddle_left_bottom := plb
        paddle_right_top := prt, paddle_right_bottom := prb
        paddle_left := plt.getD g.paddle_left
        paddle_right := prt.getD g.paddle_right }
    else
      { g with
        paddle_left := g.paddle_left.reset 50 250
        paddle_right := g.paddle_right.reset 740 250 }
  { g1 with ball := Ball.reset t r.angle r.dirLeft g1.ball 400 300 }

/-- Python `Game.start_game`: enter PLAYING, zero the scores, rebuild the objects,
reset positions.  `_init_game_objects` and `_reset_positions` each draw
fresh randomness, hence the two `RandomDraw`s. -/
def start_game (t : Trig α) (r1 r2 : RandomDraw α) (g : Game α) : Game α :=
  reset_positions t r2 (init_game_objects t r1
    { g with state := .PLAYING, score_left := 0, score_right := 0 })

/-- Python `Game._score_left`: increment, then either finish the match or reset
the rally (and reassign AI strategies in doubles / one-player modes). -/
def score_left_step (t : Trig α) (r : RandomDraw α) (g : Game α) : Game α :=
  let g := { g with score_left := g.score_left + 1 }
  if g.score_left ≥ 10 then { g with state := .GAME_OVER }  -- WINNING_SCORE
  else
    let g := reset_positions t r g
    if g.mode = .DOUBLES then
      { g with ai := g.ai.randomize_strategy r.strat_top
               ai_bottom := g.ai_bottom.map
                 (fun a => a.randomize_strategy r.strat_bottom) }
    else if g.mode = .ONE_PLAYER then
      { g with ai := g.ai.randomize_strategy r.strat_top }
    else g

/-- Python `Game._score_right`: mirror image of `_score_left`. -/
def score_right_step (t : Trig α) (r : RandomDraw α) (g : Game α) : Game α :=
  let g := { g with score_right := g.score_right + 1 }
  if g.score_right ≥ 10 then { g with state := .GAME_OVER }  -- WINNING_SCORE
  else
    let g := reset_positions t r g
    if g.mode = .DOUBLES then
      { g with ai := g.ai.randomize_strategy r.strat_top
               ai_bottom := g.ai_bottom.map
                 (fun a => a.randomize_strategy r.strat_bottom) }
    else if g.mode = .ONE_PLAYER then
      { g with ai := g.ai.randomize_strategy r.strat_top }
    else g

/-- The movement part of `Game.update` (everything before the scoring
check): paddle integration, AI decisions, ball integration, collision
checks in fixed paddle order. -/
def move_phase (t : Trig α) (g : Game α) : Game α :=
  if g.mode = .DOUBLES then
    let plt := g.paddle_left_top.map Paddle.update
    let plb := g.paddle_left_bottom.map Paddle.update
    let prt := g.paddle_right_top.map Paddle.update
    let prb := g.paddle_right_bottom.map Paddle.update
    -- both AI players decide on the (already integrated) paddles they drive
    let prt := prt.map (fun p => g.ai.update g.ball p)
    let prb :=
      match g.ai_bottom with
      | some a => prb.map (fun p => a.update g.ball p)
      | none => prb
    let b := g.ball.update
    let b := match plt with
      | some p => (b.check_paddle_collision t p).1 | none => b
    let b := match plb with
      | some p => (b.check_paddle_collision t p).1 | none => b
    let b := match prt with
      | some p => (b.check_paddle_collision t p).1 | none => b
    let b := match prb with
      | some p => (b.check_paddle_collision t p).1 | none => b
    { g with
      paddle_left_top := plt, paddle_left_bottom := plb
      paddle_right_top := prt, paddle_right_bottom := prb
      paddle_left := plt.getD g.paddle_left
      paddle_right := prt.getD g.paddle_right
      ball := b }
  else
    let pl := g.paddle_left.update
    let pr := g.paddle_right.update
    -- AI drives the right paddle in 1P mode
    let pr := if g.mode = .ONE_PLAYER then g.ai.update g.ball pr else pr
    let b := g.ball.update
    let b := (b.check_paddle_collision t pl).1
    let b := (b.check_paddle_collision t pr).1
    { g with paddle_left := pl, paddle_right := pr, ball := b }

/-- Python `Game.update`: one tick.  Does nothing unless PLAYING; otherwise runs
the movement phase and then the scoring check (`is_out_left` first, as in
the source's `if`/`elif`). -/
def update (t : Trig α) (r : RandomDraw α) (g : Game α) : Game α :=
  if g.state ≠ .PLAYING then g
  else
    let m := move_phase t g
    if m.ball.is_out_left then score_right_step t r m
    else if m.ball.is_out_right then score_left_step t r m
    else m

/-- Python `Game.toggle_mode`: cycle 1P → 2P → Doubles → 1P, then rebuild the game
objects for the new mode. -/
def toggle_mode (t : Trig α) (r : RandomDraw α) (g : Game α) : Game α :=
  let next : GameMode :=
    match g.mode with
    | .ONE_PLAYER => .TWO_PLAYER
    | .TWO_PLAYER => .DOUBLES
    | .DOUBLES => .ONE_PLAYER
  init_game_objects t r { g with mode := next }

/-- Python `Game.return_to_menu`. -/
def return_to_menu (g : Game α) : Game α :=
  { g with state := .MENU, score_left := 0, score_right := 0 }

/-- Python `Game.__init__`: MENU state, TWO_PLAYER mode, zero scores, objects
built by `_init_game_objects` (the placeholder fields are all overwritten
by it in every branch). -/
def init (t : Trig α) (r : RandomDraw α) : Game α :=
  init_game_objects t r
    { state := .MENU, mode := .TWO_PLAYER
      score_left := 0, score_right := 0
      paddle_left := Paddle.createStd 0 0
      paddle_right := Paddle.createStd 0 0
      paddle_left_top := none, paddle_left_bottom := none
      paddle_right_top := none, paddle_right_bottom := none
      ai := AIPlayer.create .medium false none none
      ai_bottom := none
      ball := { x := 0, y := 0, size := 10, speed := 5, vx := 0, vy := 0 } }

end Game

/-- The operations the menu/input layer can invoke on the game, with their
random draws attached. -/
inductive Op (α : Type*) where
  | tick (t : Trig α) (r : RandomDraw α)
  | start (t : Trig α) (r1 r2 : RandomDraw α)
  | menu
  | mode (t : Trig α) (r : RandomDraw α)

/-- Apply one operation. -/
def applyOp (g : Game α) : Op α → Game α
  | .tick t r => g.update t r
  | .start t r1 r2 => g.start_game t r1 r2
  | .menu => g.return_to_menu
  | .mode t r => g.toggle_mode t r

/-- Run a sequence of operations from a state. -/
def run (g : Game α) (ops : List (Op α)) : Game α := ops.foldl applyOp g

/-! ### Trigonometric instantiations -/

/-- Python `math.atan2(y, x)` over the reals (signed zeros ignored, which is
irrelevant here: the code only calls it with a nonnegative second
argument). -/
noncomputable def atan2 (y x : ℝ) : ℝ :=
  if 0 < x then Real.arctan (y / x)
  else if x < 0 then
    if 0 ≤ y then Real.arctan (y / x) + Real.pi
    else Real.arctan (y / x) - Real.pi
  else
    if 0 < y then Real.pi / 2
    else if y < 0 then -(Real.pi / 2)
    else 0

/-- The real instantiation of the trigonometric primitives: this is the
semantics of `math.cos` / `math.sin` / `math.atan2` with floats idealised
as reals. -/
noncomputable def realTrig : Trig ℝ := ⟨Real.cos, Real.sin, atan2⟩

/-- A rational operation bundle used to instantiate, at `ℚ`, theorems that
are proved for every `Trig` bundle (its values are arbitrary: those
theorems never depend on them). -/
def ratTrig : Trig ℚ := ⟨fun _ => 1, fun _ => 0, fun _ _ => 0⟩

/-- A fixed batch of random draws, used when instantiating theorems at
concrete states (their values are irrelevant to the properties checked). -/
def sampleDraw : RandomDraw ℚ :=
  ⟨0, false, AIStrategy.BALANCED, AIStrategy.BALANCED⟩

/-- A concrete two-player rally state at match point for the left player:
PLAYING, score 9–0, paddles at their standard posts, ball about to fly out
of the right edge without touching anything. -/
def matchPointGame : Game ℚ :=
  { state := .PLAYING, mode := .TWO_PLAYER
    score_left := 9, score_right := 0
    paddle_left := Paddle.createStd 50 250
    paddle_right := Paddle.createStd 740 250
    paddle_left_top := none, paddle_left_bottom := none
    paddle_right_top := none, paddle_right_bottom := none
    ai := AIPlayer.create .medium false none none
    ai_bottom := none
    ball := { x := 800, y := 300, size := 10, speed := 5, vx := 7, vy := 0 } }

/-! ## Theorems -/

/-- C5: for every paddle with `height ≤ WINDOW_HEIGHT` and
`min_x + width ≤ max_x`, after `update()` the paddle's y lies within
`[0, WINDOW_HEIGHT - height]` and its x within `[min_x, max_x - width]`
(the x clamp is exercised by the 4-paddle formation's bounds and, in the
2-paddle formations, by the default bounds `[0, WINDOW_WIDTH]`). -/
theorem paddle_update_clamps (p : Paddle α)
    (hh : (p.height : α) ≤ 600) (hw : p.min_x + (p.width : α) ≤ p.max_x) :
    0 ≤ p.update.y ∧ p.update.y ≤ 600 - (p.height : α) ∧
    p.min_x ≤ p.update.x ∧ p.update.x ≤ p.max_x - (p.width : α) := by
  simp only [Paddle.update]
  split_ifs <;> refine ⟨?_, ?_, ?_, ?_⟩ <;> linarith

/-- Witness for C5: a concrete paddle moving down-right past both bounds. -/
theorem paddle_update_clamps_witness :
    (((100 : ℤ) : ℚ) ≤ 600 ∧ (0 : ℚ) + ((10 : ℤ) : ℚ) ≤ 800) ∧
    (0 ≤ (Paddle.update { Paddle.createStd (795 : ℚ) 580 with
            velocity_y := 50, velocity_x := 50 }).y ∧
     (Paddle.update { Paddle.createStd (795 : ℚ) 580 with
            velocity_y := 50, velocity_x := 50 }).y ≤ 600 - ((100 : ℤ) : ℚ) ∧
     (0 : ℚ) ≤ (Paddle.update { Paddle.createStd (795 : ℚ) 580 with
            velocity_y := 50, velocity_x := 50 }).x ∧
     (Paddle.update { Paddle.createStd (795 : ℚ) 580 with
            velocity_y := 50, velocity_x := 50 }).x ≤ 800 - ((10 : ℤ) : ℚ)) :=
  ⟨⟨by norm_num, by norm_num⟩,
   paddle_update_clamps _ (by norm_num [Paddle.createStd])
     (by norm_num [Paddle.createStd])⟩

/-- C6: whenever the integration step reaches the top wall
(`y + vy - size//2 ≤ 0`) or — not having reached the top — the bottom wall
(`y + vy + size//2 ≥ WINDOW_HEIGHT`), `Ball.update` negates vy exactly and
clamps y to exactly `size//2` (top) or `WINDOW_HEIGHT - size//2` (bottom);
x integrates normally, and the velocity magnitude is preserved (vx is
untouched and `(-vy)^2 = vy^2`).  (`size // 2` is exactly half the size for
the program's even `BALL_SIZE = 10`.) -/
theorem ball_update_wall_reflection (b : Ball α) :
    (b.y + b.vy - ((b.size / 2 : ℤ) : α) ≤ 0 →
      b.update = { b with x := b.x + b.vx, y := ((b.size / 2 : ℤ) : α),
                          vy := -b.vy } ∧
      b.update.vx ^ 2 + b.update.vy ^ 2 = b.vx ^ 2 + b.vy ^ 2) ∧
    (¬ (b.y + b.vy - ((b.size / 2 : ℤ) : α) ≤ 0) →
      b.y + b.vy + ((b.size / 2 : ℤ) : α) ≥ 600 →
      b.update = { b with x := b.x + b.vx, y := 600 - ((b.size / 2 : ℤ) : α),
                          vy := -b.vy } ∧
      b.update.vx ^ 2 + b.update.vy ^ 2 = b.vx ^ 2 + b.vy ^ 2) := by
  constructor
  · intro h1
    simp only [Ball.update, if_pos h1]
    exact ⟨by trivial, by ring⟩
  · intro h1 h2
    simp only [Ball.update, if_neg h1, if_pos h2]
    exact ⟨by trivial, by ring⟩

/-- Witness for C6: a ball crossing the top wall. -/
theorem ball_update_wall_reflection_witness :
    ((8 : ℚ) + (-4) - (((10 : ℤ) / 2 : ℤ) : ℚ) ≤ 0) ∧
    (Ball.update ({ x := 100, y := 8, size := 10, speed := 5,
                    vx := 1, vy := -4 } : Ball ℚ) =
       { x := (100 : ℚ) + 1, y := (((10 : ℤ) / 2 : ℤ) : ℚ), size := 10,
         speed := 5, vx := 1, vy := -(-4) } ∧
     (Ball.update { x := 100, y := 8, size := 10, speed := 5,
                    vx := 1, vy := -4 } : Ball ℚ).vx ^ 2 +
       (Ball.update { x := 100, y := 8, size := 10, speed := 5,
                      vx := 1, vy := -4 } : Ball ℚ).vy ^ 2 =
       (1 : ℚ) ^ 2 + (-4) ^ 2) :=
  ⟨by norm_num,
   (ball_update_wall_reflection
     ({ x := 100, y := 8, size := 10, speed := 5, vx := 1, vy := -4 } :
       Ball ℚ)).1 (by norm_num)⟩

/-- C10: for every starting position and velocity of a ball with the
program's `BALL_SIZE = 10`, after `Ball.update` the y position lies within
`[size/2, WINDOW_HEIGHT - size/2] = [5, 595]`; and because the wall checks
use `≤` / `≥`, a ball whose integration step lands exactly on an edge
(`y + vy = 5` or `y + vy = 595`) is also reflected (vy negated), not only
one that strictly crosses. -/
theorem ball_update_y_range (b : Ball α) (hsz : b.size = 10) :
    (5 : α) ≤ b.update.y ∧ b.update.y ≤ 595 ∧
    (b.y + b.vy = 5 ∨ b.y + b.vy = 595 → b.update.vy = -b.vy) := by
  have h5 : ((b.size / 2 : ℤ) : α) = 5 := by rw [hsz]; norm_num
  have hy : b.update.y =
      (if b.y + b.vy - 5 ≤ 0 then (5 : α)
       else if b.y + b.vy + 5 ≥ 600 then 600 - 5 else b.y + b.vy) := by
    simp only [Ball.update, h5]
    split_ifs <;> rfl
  have hvy : b.update.vy =
      (if b.y + b.vy - 5 ≤ 0 then -b.vy
       else if b.y + b.vy + 5 ≥ 600 then -b.vy else b.vy) := by
    simp only [Ball.update, h5]
    split_ifs <;> rfl
  refine ⟨?_, ?_, ?_⟩
  · rw [hy]; split_ifs <;> linarith
  · rw [hy]; split_ifs <;> linarith
  · intro h
    rw [hvy]
    rcases h with h | h
    · rw [if_pos (by rw [h]; norm_num)]
    · rw [if_neg (by rw [h]; norm_num), if_pos (by rw [h]; norm_num)]

/-- Witness for C10: a ball landing exactly on the top edge. -/
theorem ball_update_y_range_witness :
    (({ x := 100, y := 8, size := 10, speed := 5, vx := 1, vy := -3 } :
        Ball ℚ).size = 10) ∧
    ((5 : ℚ) ≤ (Ball.update { x := 100, y := 8, size := 10, speed := 5,
                              vx := 1, vy := -3 } : Ball ℚ).y ∧
     (Ball.update { x := 100, y := 8, size := 10, speed := 5,
                    vx := 1, vy := -3 } : Ball ℚ).y ≤ 595 ∧
     ((8 : ℚ) + (-3) = 5 ∨ (8 : ℚ) + (-3) = 595 →
       (Ball.update { x := 100, y := 8, size := 10, speed := 5,
                      vx := 1, vy := -3 } : Ball ℚ).vy = -(-3))) :=
  ⟨rfl, ball_update_y_range _ rfl⟩

/-- C3: a `check_paddle_collision` call never decreases the speed field,
and never pushes it past `BALL_MAX_SPEED = 10` when it was within the cap
before the call (within one rally the speed starts at
`BALL_INITIAL_SPEED ≤ 10`, so by induction it stays in the cap across any
sequence of collisions); and every relaunch (`reset_velocity`) sets the
speed to `BALL_INITIAL_SPEED = 5`.  Holds for every trig bundle — the
speed update is pure arithmetic. -/
theorem ball_speed_monotone_capped (t : Trig α) (b : Ball α) (p : Paddle α)
    (angle : α) (d : Bool) :
    b.speed ≤ (b.check_paddle_collision t p).1.speed ∧
    (b.speed ≤ 10 → (b.check_paddle_collision t p).1.speed ≤ 10) ∧
    (b.reset_velocity t angle d).speed = 5 := by
  have key : (b.check_paddle_collision t p).1.speed = b.speed ∨
      ((b.check_paddle_collision t p).1.speed = min (b.speed + 1 / 2) 10 ∧
        b.speed < min (b.speed + 1 / 2) 10) := by
    simp only [Ball.check_paddle_collision]
    split_ifs with h0 h1 h2 h3 <;>
      first
        | (left; rfl)
        | (right; exact ⟨rfl, h3⟩)
  refine ⟨?_, ?_, rfl⟩
  · rcases key with h | ⟨h, hlt⟩
    · rw [h]
    · rw [h]; exact le_of_lt hlt
  · intro hle
    rcases key with h | ⟨h, _⟩
    · rw [h]; exact hle
    · rw [h]; exact min_le_right _ _

/-- Witness for C3: a rejected collision (no bounding-box overlap) keeps
the speed; the cap hypothesis holds at speed 5. -/
theorem ball_speed_monotone_capped_witness :
    (({ x := 100, y := 300, size := 10, speed := 5, vx := 2, vy := 0 } :
        Ball ℚ).speed ≤ 10) ∧
    (({ x := 100, y := 300, size := 10, speed := 5, vx := 2, vy := 0 } :
        Ball ℚ).speed ≤
      (Ball.check_paddle_collision ratTrig
        { x := 100, y := 300, size := 10, speed := 5, vx := 2, vy := 0 }
        (Paddle.createStd 740 250)).1.speed ∧
     (Ball.check_paddle_collision ratTrig
        { x := 100, y := 300, size := 10, speed := 5, vx := 2, vy := 0 }
        (Paddle.createStd 740 250)).1.speed ≤ 10 ∧
     (Ball.reset_velocity ratTrig 0 false
        { x := 100, y := 300, size := 10, speed := 5, vx := 2, vy := 0 } :
        Ball ℚ).speed = 5) :=
  ⟨by norm_num,
   let h := ball_speed_monotone_capped ratTrig
     { x := 100, y := 300, size := 10, speed := 5, vx := 2, vy := 0 }
     (Paddle.createStd 740 250) 0 false
   ⟨h.1, h.2.1 (by norm_num), h.2.2⟩⟩

/-- C2: for every ball/paddle pair whose bounding boxes intersect, if the
ball is nominally hitting from the left while still moving leftward
(`vx < 0`), or from the right while still moving rightward (`vx > 0`), then
`check_paddle_collision` returns false and leaves the ball — velocity,
speed and position — completely unchanged. -/
theorem collision_rejected_when_escaping (t : Trig α) (b : Ball α)
    (p : Paddle α) (hc : colliderect b.rect p.rect)
    (hdir : (b.x < p.center_x ∧ b.vx < 0) ∨
            (¬ b.x < p.center_x ∧ 0 < b.vx)) :
    b.check_paddle_collision t p = (b, false) := by
  simp only [Ball.check_paddle_collision]
  rw [if_neg (not_not_intro hc)]
  rcases hdir with h | h
  · rw [if_pos h]
  · rw [if_neg (fun hcon => h.1 hcon.1), if_pos h]

/-- Witness for C2: a ball overlapping the left paddle from the left while
moving left. -/
theorem collision_rejected_when_escaping_witness :
    colliderect
      ({ x := 48, y := 300, size := 10, speed := 5, vx := -3, vy := 0 } :
        Ball ℚ).rect (Paddle.createStd 50 250 : Paddle ℚ).rect ∧
    Ball.check_paddle_collision ratTrig
      { x := 48, y := 300, size := 10, speed := 5, vx := -3, vy := 0 }
      (Paddle.createStd 50 250) =
      ({ x := 48, y := 300, size := 10, speed := 5, vx := -3, vy := 0 },
        false) := by
  have hc : colliderect
      ({ x := 48, y := 300, size := 10, speed := 5, vx := -3, vy := 0 } :
        Ball ℚ).rect (Paddle.createStd 50 250 : Paddle ℚ).rect := by
    norm_num [colliderect, Ball.rect, Paddle.rect, trunc, Paddle.createStd]
  exact ⟨hc, collision_rejected_when_escaping ratTrig _ _ hc
    (Or.inl ⟨by norm_num [Paddle.createStd, Paddle.center_x], by norm_num⟩)⟩

/-- C7: for a non-doubles medium AI (speed 4, reaction zone 30) driving a
paddle at y = 250 with height 100 (center 300): a ball at y = 310 gives
`diff = 10 < 30`, so the paddle's y velocity is set to 0; a ball at
y = 100 gives `diff = -200` with `|diff| ≥ 30`, so the y velocity is set
to `-speed`. -/
theorem ai_reaction_zone_scenarios :
    ((AIPlayer.create .medium false none none : AIPlayer ℚ).update
        { x := 400, y := 310, size := 10, speed := 5, vx := 0, vy := 0 }
        (Paddle.createStd 740 250)).velocity_y = 0 ∧
    ((AIPlayer.create .medium false none none : AIPlayer ℚ).update
        { x := 400, y := 100, size := 10, speed := 5, vx := 0, vy := 0 }
        (Paddle.createStd 740 250)).velocity_y =
      -(AIPlayer.create .medium false none none : AIPlayer ℚ).speed := by
  constructor <;>
    norm_num [AIPlayer.update, AIPlayer.create, AIPlayer.difficultyParams,
      Paddle.createStd, Paddle.center_y, Paddle.stop, abs]

/-- Python `math.atan2` with a positive second argument is `arctan` of the
quotient. -/
theorem atan2_pos_x (y x : ℝ) (hx : 0 < x) : atan2 y x = Real.arctan (y / x) := by
  unfold atan2
  rw [if_pos hx]

/-- C1 (amended): for every real ball/paddle state in which
`check_paddle_collision` accepts the hit (boxes intersect, tie-break does
not reject), with a nonnegative speed field *strictly below
`BALL_MAX_SPEED = 10`*, the call returns true, the Euclidean magnitude of
the resulting `(vx, vy)` equals the updated speed field exactly (the
idealisation of "within floating tolerance"), and the horizontal direction
is flipped whenever `vx` had a sign.  At `speed = BALL_MAX_SPEED` the
speed-increase branch is skipped and no rescale happens, so the magnitude
can drift from the speed field — see the counterexample. -/
theorem collision_restores_speed_magnitude (b : Ball ℝ) (p : Paddle ℝ)
    (hc : colliderect b.rect p.rect)
    (hL : ¬(b.x < p.center_x ∧ b.vx < 0))
    (hR : ¬(¬ b.x < p.center_x ∧ 0 < b.vx))
    (hs0 : 0 ≤ b.speed) (hcap : b.speed < 10) :
    (b.check_paddle_collision realTrig p).2 = true ∧
    Real.sqrt ((b.check_paddle_collision realTrig p).1.vx ^ 2 +
               (b.check_paddle_collision realTrig p).1.vy ^ 2) =
      (b.check_paddle_collision realTrig p).1.speed ∧
    (0 < b.vx → (b.check_paddle_collision realTrig p).1.vx < 0) ∧
    (b.vx < 0 → 0 < (b.check_paddle_collision realTrig p).1.vx) := by
  have hmin : b.speed < min (b.speed + 1 / 2) 10 := lt_min (by linarith) hcap
  have hns0 : (0 : ℝ) < min (b.speed + 1 / 2) 10 := lt_of_le_of_lt hs0 hmin
  have hcall : b.check_paddle_collision realTrig p =
      ({ b with
          x := if b.x < p.center_x then p.x - ((b.size / 2 : ℤ) : ℝ) - 1
               else p.x + (p.width : ℝ) + ((b.size / 2 : ℤ) : ℝ) + 1
          speed := min (b.speed + 1 / 2) 10
          vx := (if 0 < -b.vx then (1 : ℝ) else -1) * min (b.speed + 1 / 2) 10 *
            realTrig.cos (realTrig.atan2
              (b.vy + (b.y - p.center_y) / ((p.height : ℝ) / 2) * b.speed *
                (1 / 20) * 10) |(-b.vx)|)
          vy := min (b.speed + 1 / 2) 10 *
            realTrig.sin (realTrig.atan2
              (b.vy + (b.y - p.center_y) / ((p.height : ℝ) / 2) * b.speed *
                (1 / 20) * 10) |(-b.vx)|) }, true) := by
    simp only [Ball.check_paddle_collision]
    rw [if_neg (not_not_intro hc), if_neg hL, if_neg hR, if_pos hmin]
  rw [hcall]
  set vy1 : ℝ := b.vy + (b.y - p.center_y) / ((p.height : ℝ) / 2) * b.speed *
    (1 / 20) * 10 with hvy1
  set θ : ℝ := realTrig.atan2 vy1 |(-b.vx)| with hθ
  set d : ℝ := if 0 < -b.vx then (1 : ℝ) else -1 with hd
  set ns : ℝ := min (b.speed + 1 / 2) 10 with hns
  have hd2 : d ^ 2 = 1 := by
    rw [hd]; split_ifs <;> norm_num
  have hcos : realTrig.cos θ = Real.cos θ := rfl
  have hsin : realTrig.sin θ = Real.sin θ := rfl
  refine ⟨rfl, ?_, ?_, ?_⟩
  · show Real.sqrt ((d * ns * realTrig.cos θ) ^ 2 +
        (ns * realTrig.sin θ) ^ 2) = ns
    rw [hcos, hsin]
    have hkey : (d * ns * Real.cos θ) ^ 2 + (ns * Real.sin θ) ^ 2 = ns ^ 2 := by
      have h2 := Real.sin_sq_add_cos_sq θ
      linear_combination ns ^ 2 * h2 + ns ^ 2 * Real.cos θ ^ 2 * hd2
    rw [hkey, Real.sqrt_sq hns0.le]
  · intro hvx
    show d * ns * realTrig.cos θ < 0
    have habs : |(-b.vx)| = b.vx := by rw [abs_neg, abs_of_pos hvx]
    have hcp : 0 < Real.cos θ := by
      rw [hθ, habs]
      show 0 < Real.cos (atan2 vy1 b.vx)
      rw [atan2_pos_x vy1 b.vx hvx]
      exact Real.cos_arctan_pos _
    have hdneg : d = -1 := by
      rw [hd, if_neg (by simp [not_lt, hvx.le])]
    rw [hcos, hdneg]
    nlinarith
  · intro hvx
    show 0 < d * ns * realTrig.cos θ
    have habs : |(-b.vx)| = -b.vx := abs_of_pos (by linarith)
    have hcp : 0 < Real.cos θ := by
      rw [hθ, habs]
      show 0 < Real.cos (atan2 vy1 (-b.vx))
      rw [atan2_pos_x vy1 (-b.vx) (by linarith)]
      exact Real.cos_arctan_pos _
    have hdpos : d = 1 := by
      rw [hd, if_pos (by linarith)]
    rw [hcos, hdpos]
    nlinarith

/-- Counterexample to C1 as stated: at `speed = BALL_MAX_SPEED = 10` an
accepted off-center hit bends vy without any rescale, so the velocity
magnitude (√125) no longer equals the speed field (10). -/
theorem collision_at_max_speed_cex :
    (Ball.check_paddle_collision realTrig
      { x := 402, y := 350, size := 10, speed := 10, vx := 10, vy := 0 }
      (Paddle.createStd 400 250)).2 = true ∧
    Real.sqrt ((Ball.check_paddle_collision realTrig
        { x := 402, y := 350, size := 10, speed := 10, vx := 10, vy := 0 }
        (Paddle.createStd 400 250)).1.vx ^ 2 +
      (Ball.check_paddle_collision realTrig
        { x := 402, y := 350, size := 10, speed := 10, vx := 10, vy := 0 }
        (Paddle.createStd 400 250)).1.vy ^ 2) ≠
      (Ball.check_paddle_collision realTrig
        { x := 402, y := 350, size := 10, speed := 10, vx := 10, vy := 0 }
        (Paddle.createStd 400 250)).1.speed := by
  have hcall : Ball.check_paddle_collision realTrig
      { x := 402, y := 350, size := 10, speed := 10, vx := 10, vy := 0 }
      (Paddle.createStd 400 250) =
      ({ x := 394, y := 350, size := 10, speed := 10, vx := -10, vy := 5 },
        true) := by
    norm_num [Ball.check_paddle_collision, colliderect, Ball.rect,
      Paddle.rect, trunc, Paddle.createStd, Paddle.center_x, Paddle.center_y,
      min_def]
  rw [hcall]
  refine ⟨rfl, ?_⟩
  show Real.sqrt ((-10 : ℝ) ^ 2 + 5 ^ 2) ≠ 10
  have h125 : ((-10 : ℝ) ^ 2 + 5 ^ 2) = 125 := by norm_num
  rw [h125]
  have hgt : (10 : ℝ) < Real.sqrt 125 :=
    (Real.lt_sqrt (by norm_num)).mpr (by norm_num)
  exact ne_of_gt hgt

/-- Witness for the amended C1: an accepted centred hit at speed 5 < 10. -/
theorem collision_restores_speed_magnitude_witness :
    (colliderect
      ({ x := 402, y := 300, size := 10, speed := 5, vx := 3, vy := 0 } :
        Ball ℝ).rect (Paddle.createStd 400 250 : Paddle ℝ).rect ∧
     ¬ ((402 : ℝ) < (Paddle.createStd 400 250 : Paddle ℝ).center_x ∧
        (3 : ℝ) < 0) ∧
     ¬ (¬ (402 : ℝ) < (Paddle.createStd 400 250 : Paddle ℝ).center_x ∧
        (0 : ℝ) < 3) ∧
     (0 : ℝ) ≤ 5 ∧ (5 : ℝ) < 10) ∧
    ((Ball.check_paddle_collision realTrig
        { x := 402, y := 300, size := 10, speed := 5, vx := 3, vy := 0 }
        (Paddle.createStd 400 250)).2 = true ∧
     Real.sqrt ((Ball.check_paddle_collision realTrig
          { x := 402, y := 300, size := 10, speed := 5, vx := 3, vy := 0 }
          (Paddle.createStd 400 250)).1.vx ^ 2 +
        (Ball.check_paddle_collision realTrig
          { x := 402, y := 300, size := 10, speed := 5, vx := 3, vy := 0 }
          (Paddle.createStd 400 250)).1.vy ^ 2) =
       (Ball.check_paddle_collision realTrig
          { x := 402, y := 300, size := 10, speed := 5, vx := 3, vy := 0 }
          (Paddle.createStd 400 250)).1.speed ∧
     ((0 : ℝ) < 3 → (Ball.check_paddle_collision realTrig
          { x := 402, y := 300, size := 10, speed := 5, vx := 3, vy := 0 }
          (Paddle.createStd 400 250)).1.vx < 0) ∧
     ((3 : ℝ) < 0 → 0 < (Ball.check_paddle_collision realTrig
          { x := 402, y := 300, size := 10, speed := 5, vx := 3, vy := 0 }
          (Paddle.createStd 400 250)).1.vx)) :=
  ⟨⟨by norm_num [colliderect, Ball.rect, Paddle.rect, trunc, Paddle.createStd],
    by norm_num [Paddle.createStd, Paddle.center_x],
    by norm_num [Paddle.createStd, Paddle.center_x],
    by norm_num, by norm_num⟩,
   collision_restores_speed_magnitude
     { x := 402, y := 300, size := 10, speed := 5, vx := 3, vy := 0 }
     (Paddle.createStd 400 250)
     (by norm_num [colliderect, Ball.rect, Paddle.rect, trunc,
       Paddle.createStd])
     (by norm_num [Paddle.createStd, Paddle.center_x])
     (by norm_num [Paddle.createStd, Paddle.center_x])
     (by norm_num) (by norm_num)⟩

/-- Counterexample to C8 as stated: `set_mode` (invoked here from the MENU
state, so not PLAYING) records the new mode but does **not** tear down and
rebuild the paddle/controller set — after switching a fresh two-player game
to DOUBLES, there is still no four-paddle topology (the doubles paddle
slots and the second controller stay empty, and the existing paddles are
untouched). -/
theorem set_mode_does_not_rebuild_cex :
    ((Game.init ratTrig sampleDraw).set_mode .DOUBLES).state ≠ .PLAYING ∧
    ((Game.init ratTrig sampleDraw).set_mode .DOUBLES).mode = .DOUBLES ∧
    ((Game.init ratTrig sampleDraw).set_mode .DOUBLES).paddle_left_top =
      none ∧
    ((Game.init ratTrig sampleDraw).set_mode .DOUBLES).ai_bottom = none ∧
    ((Game.init ratTrig sampleDraw).set_mode .DOUBLES).paddle_left =
      (Game.init ratTrig sampleDraw).paddle_left := by
  refine ⟨?_, rfl, rfl, rfl, rfl⟩
  simp [Game.set_mode, Game.init, Game.init_game_objects]

/-- C8 (amended): mode changes performed through `toggle_mode` — the
operation the menu layer actually invokes; `set_mode` alone records the
mode without rebuilding — tear down and rebuild the paddle/controller set
for the new mode's topology: DOUBLES gets four reduced-height paddles with
hard x-bounds confining each team to its half plus a second AI controller,
and the non-doubles modes get the two standard paddles with no doubles
slots and a single AI controller. -/
theorem toggle_mode_rebuilds_topology (t : Trig α) (r : RandomDraw α)
    (g g' : Game α) (hg' : g' = g.toggle_mode t r) :
    (g.mode = .ONE_PLAYER → g'.mode = .TWO_PLAYER) ∧
    (g.mode = .TWO_PLAYER → g'.mode = .DOUBLES) ∧
    (g.mode = .DOUBLES → g'.mode = .ONE_PLAYER) ∧
    (g'.mode = .DOUBLES →
      g'.paddle_left_top =
        some { Paddle.createBounded 60 200 0 400 with height := 80 } ∧
      g'.paddle_left_bottom =
        some { Paddle.createBounded 60 320 0 400 with height := 80 } ∧
      g'.paddle_right_top =
        some { Paddle.createBounded 730 200 400 800 with height := 80 } ∧
      g'.paddle_right_bottom =
        some { Paddle.createBounded 730 320 400 800 with height := 80 } ∧
      g'.ai = AIPlayer.create .medium true (some .top) (some 250) ∧
      g'.ai_bottom =
        some (AIPlayer.create .medium true (some .bottom) (some 350))) ∧
    (g'.mode ≠ .DOUBLES →
      g'.paddle_left_top = none ∧ g'.paddle_left_bottom = none ∧
      g'.paddle_right_top = none ∧ g'.paddle_right_bottom = none ∧
      g'.paddle_left = Paddle.createStd 50 250 ∧
      g'.paddle_right = Paddle.createStd 740 250 ∧
      g'.ai = AIPlayer.create .medium false none none ∧
      g'.ai_bottom = none) := by
  subst hg'
  rcases hm : g.mode <;>
    simp [Game.toggle_mode, Game.init_game_objects, hm, Paddle.createBounded,
      Paddle.createStd] <;>
    norm_num

/-- Witness for the amended C8: toggling a fresh two-player game (MENU
state) builds the four-paddle doubles topology. -/
theorem toggle_mode_rebuilds_topology_witness :
    ((Game.init ratTrig sampleDraw).toggle_mode ratTrig sampleDraw =
      (Game.init ratTrig sampleDraw).toggle_mode ratTrig sampleDraw) ∧
    (((Game.init ratTrig sampleDraw).mode = .ONE_PLAYER →
       ((Game.init ratTrig sampleDraw).toggle_mode ratTrig sampleDraw).mode =
         .TWO_PLAYER) ∧
     ((Game.init ratTrig sampleDraw).mode = .TWO_PLAYER →
       ((Game.init ratTrig sampleDraw).toggle_mode ratTrig sampleDraw).mode =
         .DOUBLES) ∧
     ((Game.init ratTrig sampleDraw).mode = .DOUBLES →
       ((Game.init ratTrig sampleDraw).toggle_mode ratTrig sampleDraw).mode =
         .ONE_PLAYER) ∧
     (((Game.init ratTrig sampleDraw).toggle_mode ratTrig sampleDraw).mode =
         .DOUBLES →
       ((Game.init ratTrig sampleDraw).toggle_mode ratTrig
           sampleDraw).paddle_left_top =
         some { Paddle.createBounded 60 200 0 400 with height := 80 } ∧
       ((Game.init ratTrig sampleDraw).toggle_mode ratTrig
           sampleDraw).paddle_left_bottom =
         some { Paddle.createBounded 60 320 0 400 with height := 80 } ∧
       ((Game.init ratTrig sampleDraw).toggle_mode ratTrig
           sampleDraw).paddle_right_top =
         some { Paddle.createBounded 730 200 400 800 with height := 80 } ∧
       ((Game.init ratTrig sampleDraw).toggle_mode ratTrig
           sampleDraw).paddle_right_bottom =
         some { Paddle.createBounded 730 320 400 800 with height := 80 } ∧
       ((Game.init ratTrig sampleDraw).toggle_mode ratTrig sampleDraw).ai =
         AIPlayer.create .medium true (some .top) (some 250) ∧
       ((Game.init ratTrig sampleDraw).toggle_mode ratTrig
           sampleDraw).ai_bottom =
         some (AIPlayer.create .medium true (some .bottom) (some 350))) ∧
     (((Game.init ratTrig sampleDraw).toggle_mode ratTrig sampleDraw).mode ≠
         .DOUBLES →
       ((Game.init ratTrig sampleDraw).toggle_mode ratTrig
           sampleDraw).paddle_left_top = none ∧
       ((Game.init ratTrig sampleDraw).toggle_mode ratTrig
           sampleDraw).paddle_left_bottom = none ∧
       ((Game.init ratTrig sampleDraw).toggle_mode ratTrig
           sampleDraw).paddle_right_top = none ∧
       ((Game.init ratTrig sampleDraw).toggle_mode ratTrig
           sampleDraw).paddle_right_bottom = none ∧
       ((Game.init ratTrig sampleDraw).toggle_mode ratTrig
           sampleDraw).paddle_left = Paddle.createStd 50 250 ∧
       ((Game.init ratTrig sampleDraw).toggle_mode ratTrig
           sampleDraw).paddle_right = Paddle.createStd 740 250 ∧
       ((Game.init ratTrig sampleDraw).toggle_mode ratTrig sampleDraw).ai =
         AIPlayer.create .medium false none none ∧
       ((Game.init ratTrig sampleDraw).toggle_mode ratTrig
           sampleDraw).ai_bottom = none)) :=
  ⟨rfl, toggle_mode_rebuilds_topology ratTrig sampleDraw
    (Game.init ratTrig sampleDraw) _ rfl⟩

/-! Preservation facts used by the orchestration claims. -/

theorem ball_update_size (b : Ball α) : b.update.size = b.size := by
  simp only [Ball.update]
  split_ifs <;> rfl

theorem check_paddle_collision_size (t : Trig α) (b : Ball α) (p : Paddle α) :
    (b.check_paddle_collision t p).1.size = b.size := by
  simp only [Ball.check_paddle_collision]
  split_ifs <;> rfl

theorem move_phase_state (t : Trig α) (g : Game α) :
    (g.move_phase t).state = g.state := by
  simp only [Game.move_phase]
  split_ifs <;> rfl

theorem move_phase_mode (t : Trig α) (g : Game α) :
    (g.move_phase t).mode = g.mode := by
  simp only [Game.move_phase]
  split_ifs <;> rfl

theorem move_phase_score_left (t : Trig α) (g : Game α) :
    (g.move_phase t).score_left = g.score_left := by
  simp only [Game.move_phase]
  split_ifs <;> rfl

theorem move_phase_score_right (t : Trig α) (g : Game α) :
    (g.move_phase t).score_right = g.score_right := by
  simp only [Game.move_phase]
  split_ifs <;> rfl

theorem move_phase_ball_size (t : Trig α) (g : Game α) :
    (g.move_phase t).ball.size = g.ball.size := by
  simp only [Game.move_phase]
  split_ifs with h h1
  · rcases g.paddle_left_top with _ | p1 <;>
    rcases g.paddle_left_bottom with _ | p2 <;>
    rcases g.paddle_right_top with _ | p3 <;>
    rcases g.paddle_right_bottom with _ | p4 <;>
    rcases g.ai_bottom with _ | a <;>
    simp [check_paddle_collision_size, ball_update_size]
  · simp [check_paddle_collision_size, ball_update_size]
  · simp [check_paddle_collision_size, ball_update_size]

theorem reset_positions_state (t : Trig α) (r : RandomDraw α) (g : Game α) :
    (g.reset_positions t r).state = g.state := by
  simp only [Game.reset_positions]
  split_ifs <;> rfl

theorem reset_positions_score_left (t : Trig α) (r : RandomDraw α)
    (g : Game α) : (g.reset_positions t r).score_left = g.score_left := by
  simp only [Game.reset_positions]
  split_ifs <;> rfl

theorem reset_positions_score_right (t : Trig α) (r : RandomDraw α)
    (g : Game α) : (g.reset_positions t r).score_right = g.score_right := by
  simp only [Game.reset_positions]
  split_ifs <;> rfl

theorem init_game_objects_state (t : Trig α) (r : RandomDraw α) (g : Game α) :
    (g.init_game_objects t r).state = g.state := by
  simp only [Game.init_game_objects]
  split_ifs <;> rfl

theorem init_game_objects_score_left (t : Trig α) (r : RandomDraw α)
    (g : Game α) : (g.init_game_objects t r).score_left = g.score_left := by
  simp only [Game.init_game_objects]
  split_ifs <;> rfl

theorem init_game_objects_score_right (t : Trig α) (r : RandomDraw α)
    (g : Game α) : (g.init_game_objects t r).score_right = g.score_right := by
  simp only [Game.init_game_objects]
  split_ifs <;> rfl

theorem reset_positions_mode (t : Trig α) (r : RandomDraw α) (g : Game α) :
    (g.reset_positions t r).mode = g.mode := by
  simp only [Game.reset_positions]
  split_ifs <;> rfl

theorem reset_positions_ball_fields (t : Trig α) (r : RandomDraw α)
    (g : Game α) :
    (g.reset_positions t r).ball.x = 400 ∧
    (g.reset_positions t r).ball.y = 300 ∧
    (g.reset_positions t r).ball.speed = 5 := by
  simp [Game.reset_positions, Ball.reset, Ball.reset_velocity]

theorem reset_positions_paddles_std (t : Trig α) (r : RandomDraw α)
    (g : Game α) (h : ¬ g.mode = .DOUBLES) :
    (g.reset_positions t r).paddle_left = g.paddle_left.reset 50 250 ∧
    (g.reset_positions t r).paddle_right = g.paddle_right.reset 740 250 := by
  simp only [Game.reset_positions]
  rw [if_neg h]
  exact ⟨rfl, rfl⟩

theorem reset_positions_paddles_doubles (t : Trig α) (r : RandomDraw α)
    (g : Game α) (h : g.mode = .DOUBLES) :
    (g.reset_positions t r).paddle_left_top =
      g.paddle_left_top.map (fun p => p.reset 60 (300 - 100)) ∧
    (g.reset_positions t r).paddle_left_bottom =
      g.paddle_left_bottom.map (fun p => p.reset 60 (300 + 100 - 80)) ∧
    (g.reset_positions t r).paddle_right_top =
      g.paddle_right_top.map (fun p => p.reset 730 (300 - 100)) ∧
    (g.reset_positions t r).paddle_right_bottom =
      g.paddle_right_bottom.map (fun p => p.reset 730 (300 + 100 - 80)) := by
  simp only [Game.reset_positions]
  rw [if_pos h]
  exact ⟨rfl, rfl, rfl, rfl⟩

/-- C4: in the PLAYING state, when the ball exits the right edge during a
tick: if `score_left` was `WINNING_SCORE - 1 = 9` it becomes 10 and the
state transitions to GAME_OVER with no repositioning — ball and every
paddle field are exactly the movement-phase values; if instead the
increment does not reach the threshold, the state stays PLAYING, the ball
is repositioned to the court center and relaunched (speed back to
`BALL_INITIAL_SPEED`), and every live paddle is reset to its starting post
with zeroed velocity. -/
theorem score_transition (t : Trig α) (r : RandomDraw α) (g : Game α)
    (hst : g.state = .PLAYING) (hsz : g.ball.size = 10)
    (hout : (g.move_phase t).ball.is_out_right) :
    (g.score_left = 9 →
      (g.update t r).score_left = 10 ∧
      (g.update t r).state = .GAME_OVER ∧
      (g.update t r).ball = (g.move_phase t).ball ∧
      (g.update t r).paddle_left = (g.move_phase t).paddle_left ∧
      (g.update t r).paddle_right = (g.move_phase t).paddle_right ∧
      (g.update t r).paddle_left_top = (g.move_phase t).paddle_left_top ∧
      (g.update t r).paddle_left_bottom =
        (g.move_phase t).paddle_left_bottom ∧
      (g.update t r).paddle_right_top = (g.move_phase t).paddle_right_top ∧
      (g.update t r).paddle_right_bottom =
        (g.move_phase t).paddle_right_bottom) ∧
    (g.score_left + 1 < 10 →
      (g.update t r).score_left = g.score_left + 1 ∧
      (g.update t r).state = .PLAYING ∧
      (g.update t r).ball.x = 400 ∧ (g.update t r).ball.y = 300 ∧
      (g.update t r).ball.speed = 5 ∧
      (g.mode ≠ .DOUBLES →
        (g.update t r).paddle_left =
          (g.move_phase t).paddle_left.reset 50 250 ∧
        (g.update t r).paddle_right =
          (g.move_phase t).paddle_right.reset 740 250) ∧
      (g.mode = .DOUBLES →
        (∀ p ∈ (g.update t r).paddle_left_top,
          p.x = 60 ∧ p.y = 200 ∧ p.velocity_x = 0 ∧ p.velocity_y = 0) ∧
        (∀ p ∈ (g.update t r).paddle_left_bottom,
          p.x = 60 ∧ p.y = 320 ∧ p.velocity_x = 0 ∧ p.velocity_y = 0) ∧
        (∀ p ∈ (g.update t r).paddle_right_top,
          p.x = 730 ∧ p.y = 200 ∧ p.velocity_x = 0 ∧ p.velocity_y = 0) ∧
        (∀ p ∈ (g.update t r).paddle_right_bottom,
          p.x = 730 ∧ p.y = 320 ∧ p.velocity_x = 0 ∧ p.velocity_y = 0))) := by
  have hszm : (g.move_phase t).ball.size = 10 := by
    rw [move_phase_ball_size, hsz]
  have hnl : ¬ (g.move_phase t).ball.is_out_left := by
    unfold Ball.is_out_right at hout
    unfold Ball.is_out_left
    rw [hszm] at hout ⊢
    norm_num at hout ⊢
    linarith
  have hupd : g.update t r = (g.move_phase t).score_left_step t r := by
    simp only [Game.update]
    rw [if_neg (not_not_intro hst), if_neg hnl, if_pos hout]
  constructor
  · intro h9
    have hml : (g.move_phase t).score_left = 9 := by
      rw [move_phase_score_left, h9]
    rw [hupd]
    simp only [Game.score_left_step]
    rw [if_pos (by simp [hml])]
    exact ⟨by simp [hml], rfl, rfl, rfl, rfl, rfl, rfl, rfl, rfl⟩
  · intro hlt
    have hml : (g.move_phase t).score_left = g.score_left :=
      move_phase_score_left t g
    have hmm : (g.move_phase t).mode = g.mode := move_phase_mode t g
    rw [hupd]
    -- the non-terminal branch is `reset_positions` with only the ai fields
    -- possibly rewritten afterwards
    obtain ⟨a, ab, heq⟩ : ∃ a ab,
        (g.move_phase t).score_left_step t r =
          { Game.reset_positions t r
              { g.move_phase t with
                score_left := (g.move_phase t).score_left + 1 } with
            ai := a, ai_bottom := ab } := by
      simp only [Game.score_left_step]
      rw [if_neg (by simp only [hml]; omega)]
      split_ifs
      · exact ⟨_, _, rfl⟩
      · exact ⟨_, _, rfl⟩
      · exact ⟨_, _, rfl⟩
    rw [heq]
    refine ⟨?_, ?_, ?_, ?_, ?_, ?_, ?_⟩
    · simp only [reset_positions_score_left, hml]
    · simp only [reset_positions_state, move_phase_state, hst]
    · exact (reset_positions_ball_fields t r _).1
    · exact (reset_positions_ball_fields t r _).2.1
    · exact (reset_positions_ball_fields t r _).2.2
    · intro hmode
      have hstd := reset_positions_paddles_std t r
        { g.move_phase t with
          score_left := (g.move_phase t).score_left + 1 }
        (by simpa [hmm] using hmode)
      exact ⟨hstd.1, hstd.2⟩
    · intro hmode
      have hmaps := reset_positions_paddles_doubles t r
        { g.move_phase t with
          score_left := (g.move_phase t).score_left + 1 }
        (by simpa [hmm] using hmode)
      refine ⟨?_, ?_, ?_, ?_⟩
      · intro p hp
        simp only [hmaps.1, Option.mem_def, Option.map_eq_some'] at hp
        obtain ⟨q, _, hfq⟩ := hp
        subst hfq
        exact ⟨rfl, by norm_num [Paddle.reset], rfl, rfl⟩
      · intro p hp
        simp only [hmaps.2.1, Option.mem_def, Option.map_eq_some'] at hp
        obtain ⟨q, _, hfq⟩ := hp
        subst hfq
        exact ⟨rfl, by norm_num [Paddle.reset], rfl, rfl⟩
      · intro p hp
        simp only [hmaps.2.2.1, Option.mem_def, Option.map_eq_some'] at hp
        obtain ⟨q, _, hfq⟩ := hp
        subst hfq
        exact ⟨rfl, by norm_num [Paddle.reset], rfl, rfl⟩
      · intro p hp
        simp only [hmaps.2.2.2, Option.mem_def, Option.map_eq_some'] at hp
        obtain ⟨q, _, hfq⟩ := hp
        subst hfq
        exact ⟨rfl, by norm_num [Paddle.reset], rfl, rfl⟩

/-- Witness for C4: the concrete match-point rally, ball flying out right. -/
theorem score_transition_witness :
    (matchPointGame.state = .PLAYING ∧ matchPointGame.ball.size = 10 ∧
     (matchPointGame.move_phase ratTrig).ball.is_out_right) ∧
    ((matchPointGame.score_left = 9 →
      (matchPointGame.update ratTrig sampleDraw).score_left = 10 ∧
      (matchPointGame.update ratTrig sampleDraw).state = .GAME_OVER ∧
      (matchPointGame.update ratTrig sampleDraw).ball =
        (matchPointGame.move_phase ratTrig).ball ∧
      (matchPointGame.update ratTrig sampleDraw).paddle_left =
        (matchPointGame.move_phase ratTrig).paddle_left ∧
      (matchPointGame.update ratTrig sampleDraw).paddle_right =
        (matchPointGame.move_phase ratTrig).paddle_right ∧
      (matchPointGame.update ratTrig sampleDraw).paddle_left_top =
        (matchPointGame.move_phase ratTrig).paddle_left_top ∧
      (matchPointGame.update ratTrig sampleDraw).paddle_left_bottom =
        (matchPointGame.move_phase ratTrig).paddle_left_bottom ∧
      (matchPointGame.update ratTrig sampleDraw).paddle_right_top =
        (matchPointGame.move_phase ratTrig).paddle_right_top ∧
      (matchPointGame.update ratTrig sampleDraw).paddle_right_bottom =
        (matchPointGame.move_phase ratTrig).paddle_right_bottom) ∧
     (matchPointGame.score_left + 1 < 10 →
      (matchPointGame.update ratTrig sampleDraw).score_left =
        matchPointGame.score_left + 1 ∧
      (matchPointGame.update ratTrig sampleDraw).state = .PLAYING ∧
      (matchPointGame.update ratTrig sampleDraw).ball.x = 400 ∧
      (matchPointGame.update ratTrig sampleDraw).ball.y = 300 ∧
      (matchPointGame.update ratTrig sampleDraw).ball.speed = 5 ∧
      (matchPointGame.mode ≠ .DOUBLES →
        (matchPointGame.update ratTrig sampleDraw).paddle_left =
          (matchPointGame.move_phase ratTrig).paddle_left.reset 50 250 ∧
        (matchPointGame.update ratTrig sampleDraw).paddle_right =
          (matchPointGame.move_phase ratTrig).paddle_right.reset 740 250) ∧
      (matchPointGame.mode = .DOUBLES →
        (∀ p ∈ (matchPointGame.update ratTrig sampleDraw).paddle_left_top,
          p.x = 60 ∧ p.y = 200 ∧ p.velocity_x = 0 ∧ p.velocity_y = 0) ∧
        (∀ p ∈ (matchPointGame.update ratTrig sampleDraw).paddle_left_bottom,
          p.x = 60 ∧ p.y = 320 ∧ p.velocity_x = 0 ∧ p.velocity_y = 0) ∧
        (∀ p ∈ (matchPointGame.update ratTrig sampleDraw).paddle_right_top,
          p.x = 730 ∧ p.y = 200 ∧ p.velocity_x = 0 ∧ p.velocity_y = 0) ∧
        (∀ p ∈ (matchPointGame.update ratTrig sampleDraw).paddle_right_bottom,
          p.x = 730 ∧ p.y = 320 ∧ p.velocity_x = 0 ∧
            p.velocity_y = 0)))) :=
  ⟨⟨rfl, rfl, by
      have h1 : (GameMode.TWO_PLAYER = GameMode.DOUBLES) = False :=
        eq_false (by decide)
      have h2 : (GameMode.TWO_PLAYER = GameMode.ONE_PLAYER) = False :=
        eq_false (by decide)
      norm_num [h1, h2, matchPointGame, Game.move_phase, Ball.update,
        Ball.check_paddle_collision, colliderect, Ball.rect, Paddle.rect,
        trunc, Paddle.update, Paddle.createStd, Ball.is_out_right]⟩,
   score_transition ratTrig sampleDraw matchPointGame rfl rfl
     (by
      have h1 : (GameMode.TWO_PLAYER = GameMode.DOUBLES) = False :=
        eq_false (by decide)
      have h2 : (GameMode.TWO_PLAYER = GameMode.ONE_PLAYER) = False :=
        eq_false (by decide)
      norm_num [h1, h2, matchPointGame, Game.move_phase, Ball.update,
        Ball.check_paddle_collision, colliderect, Ball.rect, Paddle.rect,
        trunc, Paddle.update, Paddle.createStd, Ball.is_out_right])⟩

/-- Python `_score_left` either finishes the match (threshold reached) or resets
the rally, possibly reassigning the AI strategies. -/
theorem score_left_step_cases (t : Trig α) (r : RandomDraw α) (G : Game α) :
    (G.score_left_step t r =
        { G with score_left := G.score_left + 1, state := .GAME_OVER } ∧
      10 ≤ G.score_left + 1) ∨
    (∃ a ab, G.score_left_step t r =
        { Game.reset_positions t r
            { G with score_left := G.score_left + 1 } with
          ai := a, ai_bottom := ab } ∧
      G.score_left + 1 < 10) := by
  simp only [Game.score_left_step]
  split_ifs with h h1 h2
  · exact Or.inl ⟨rfl, h⟩
  · exact Or.inr ⟨_, _, rfl, not_le.mp h⟩
  · exact Or.inr ⟨_, _, rfl, not_le.mp h⟩
  · exact Or.inr ⟨_, _, rfl, not_le.mp h⟩

/-- Python `_score_right`, mirror image. -/
theorem score_right_step_cases (t : Trig α) (r : RandomDraw α) (G : Game α) :
    (G.score_right_step t r =
        { G with score_right := G.score_right + 1, state := .GAME_OVER } ∧
      10 ≤ G.score_right + 1) ∨
    (∃ a ab, G.score_right_step t r =
        { Game.reset_positions t r
            { G with score_right := G.score_right + 1 } with
          ai := a, ai_bottom := ab } ∧
      G.score_right + 1 < 10) := by
  simp only [Game.score_right_step]
  split_ifs with h h1 h2
  · exact Or.inl ⟨rfl, h⟩
  · exact Or.inr ⟨_, _, rfl, not_le.mp h⟩
  · exact Or.inr ⟨_, _, rfl, not_le.mp h⟩
  · exact Or.inr ⟨_, _, rfl, not_le.mp h⟩

/-- One operation preserves the score invariant (scores capped at the
winning threshold, strictly below it while a rally is live). -/
theorem score_invariant_step (g : Game α) (op : Op α)
    (h1 : g.score_left ≤ 10) (h2 : g.score_right ≤ 10)
    (h3 : g.state = .PLAYING → g.score_left < 10 ∧ g.score_right < 10) :
    (applyOp g op).score_left ≤ 10 ∧ (applyOp g op).score_right ≤ 10 ∧
    ((applyOp g op).state = .PLAYING →
      (applyOp g op).score_left < 10 ∧ (applyOp g op).score_right < 10) := by
  rcases op with ⟨t, r⟩ | ⟨t, r1, r2⟩ | _ | ⟨t, r⟩
  · -- tick
    simp only [applyOp, Game.update]
    by_cases hpl : g.state = .PLAYING
    · rw [if_neg (not_not_intro hpl)]
      obtain ⟨hl9, hr9⟩ := h3 hpl
      have hml := move_phase_score_left t g
      have hmr := move_phase_score_right t g
      have hms := move_phase_state t g
      split_ifs with ho1 ho2
      · rcases score_right_step_cases t r (g.move_phase t) with
          ⟨heq, _⟩ | ⟨a, ab, heq, hlt⟩
        · rw [heq]
          refine ⟨by simp [hml]; omega, by simp [hmr]; omega, ?_⟩
          intro hfalse
          simp at hfalse
        · rw [heq]
          simp only [reset_positions_score_left, reset_positions_score_right,
            reset_positions_state, hml, hmr, hms]
          exact ⟨by omega, by omega, fun _ => ⟨by omega, by omega⟩⟩
      · rcases score_left_step_cases t r (g.move_phase t) with
          ⟨heq, _⟩ | ⟨a, ab, heq, hlt⟩
        · rw [heq]
          refine ⟨by simp [hml]; omega, by simp [hmr]; omega, ?_⟩
          intro hfalse
          simp at hfalse
        · rw [heq]
          simp only [reset_positions_score_left, reset_positions_score_right,
            reset_positions_state, hml, hmr, hms]
          exact ⟨by omega, by omega, fun _ => ⟨by omega, by omega⟩⟩
      · rw [hml, hmr, hms]
        exact ⟨h1, h2, fun _ => ⟨hl9, hr9⟩⟩
    · rw [if_pos hpl]
      exact ⟨h1, h2, h3⟩
  · -- start
    simp only [applyOp, Game.start_game, reset_positions_score_left,
      reset_positions_score_right, reset_positions_state,
      init_game_objects_score_left, init_game_objects_score_right,
      init_game_objects_state]
    exact ⟨by norm_num, by norm_num, fun _ => ⟨by norm_num, by norm_num⟩⟩
  · -- menu
    simp only [applyOp, Game.return_to_menu]
    refine ⟨by norm_num, by norm_num, ?_⟩
    intro hfalse
    simp at hfalse
  · -- mode toggle
    simp only [applyOp, Game.toggle_mode, init_game_objects_score_left,
      init_game_objects_score_right, init_game_objects_state]
    exact ⟨h1, h2, h3⟩

/-- C9: from a fresh game, no sequence of tick / start / menu / mode
operations can push either score past `WINNING_SCORE = 10`; moreover each
scoring handler increments its score by exactly 1 and moves to GAME_OVER
as soon as the threshold is reached, and a tick performs nothing at all
(no scoring included) unless the state is PLAYING. -/
theorem scores_never_exceed_winning (t0 : Trig α) (r0 : RandomDraw α) :
    (∀ ops : List (Op α),
      (run (Game.init t0 r0) ops).score_left ≤ 10 ∧
      (run (Game.init t0 r0) ops).score_right ≤ 10) ∧
    (∀ (g : Game α) (t : Trig α) (r : RandomDraw α),
      g.state ≠ .PLAYING → g.update t r = g) ∧
    (∀ (g : Game α) (t : Trig α) (r : RandomDraw α),
      (g.score_left_step t r).score_left = g.score_left + 1 ∧
      (g.score_right_step t r).score_right = g.score_right + 1 ∧
      (10 ≤ g.score_left + 1 → (g.score_left_step t r).state = .GAME_OVER) ∧
      (10 ≤ g.score_right + 1 →
        (g.score_right_step t r).state = .GAME_OVER)) := by
  refine ⟨?_, ?_, ?_⟩
  · have key : ∀ (ops : List (Op α)) (g : Game α),
        g.score_left ≤ 10 → g.score_right ≤ 10 →
        (g.state = .PLAYING → g.score_left < 10 ∧ g.score_right < 10) →
        (run g ops).score_left ≤ 10 ∧ (run g ops).score_right ≤ 10 ∧
        ((run g ops).state = .PLAYING →
          (run g ops).score_left < 10 ∧ (run g ops).score_right < 10) := by
      intro ops
      induction ops with
      | nil => exact fun g h1 h2 h3 => ⟨h1, h2, h3⟩
      | cons op ops ih =>
          intro g h1 h2 h3
          have hstep := score_invariant_step g op h1 h2 h3
          exact ih (applyOp g op) hstep.1 hstep.2.1 hstep.2.2
    intro ops
    have hs : (Game.init t0 r0 : Game α).state = .MENU :=
      init_game_objects_state t0 r0 _
    have h := key ops (Game.init t0 r0)
      (by simp only [Game.init, init_game_objects_score_left]; norm_num)
      (by simp only [Game.init, init_game_objects_score_right]; norm_num)
      (by rw [hs]; intro hfalse; simp at hfalse)
    exact ⟨h.1, h.2.1⟩
  · intro g t r h
    simp only [Game.update]
    rw [if_pos h]
  · intro g t r
    refine ⟨?_, ?_, ?_, ?_⟩
    · rcases score_left_step_cases t r g with ⟨heq, _⟩ | ⟨a, ab, heq, _⟩
      · rw [heq]
      · rw [heq]
        simp [reset_positions_score_left]
    · rcases score_right_step_cases t r g with ⟨heq, _⟩ | ⟨a, ab, heq, _⟩
      · rw [heq]
      · rw [heq]
        simp [reset_positions_score_right]
    · intro hge
      rcases score_left_step_cases t r g with ⟨heq, _⟩ | ⟨a, ab, heq, hlt⟩
      · rw [heq]
      · omega
    · intro hge
      rcases score_right_step_cases t r g with ⟨heq, _⟩ | ⟨a, ab, heq, hlt⟩
      · rw [heq]
      · omega

/-- Witness for C9: empty run from a fresh game; a tick in the MENU state
changes nothing; the scoring handler at 9 reaches GAME_OVER. -/
theorem scores_never_exceed_winning_witness :
    ((run (Game.init ratTrig sampleDraw) []).score_left ≤ 10 ∧
     (run (Game.init ratTrig sampleDraw) []).score_right ≤ 10) ∧
    (Game.init ratTrig sampleDraw).state ≠ .PLAYING ∧
    (Game.init ratTrig sampleDraw).update ratTrig sampleDraw =
      Game.init ratTrig sampleDraw ∧
    10 ≤ matchPointGame.score_left + 1 ∧
    (matchPointGame.score_left_step ratTrig sampleDraw).state =
      .GAME_OVER := by
  have hne : (Game.init ratTrig sampleDraw).state ≠ .PLAYING := by
    simp only [Game.init, init_game_objects_state]
    decide
  refine ⟨(scores_never_exceed_winning ratTrig sampleDraw).1 [], hne,
    (scores_never_exceed_winning ratTrig sampleDraw).2.1 _ ratTrig
      sampleDraw hne, by norm_num [matchPointGame], ?_⟩
  exact ((scores_never_exceed_winning ratTrig sampleDraw).2.2
    matchPointGame ratTrig sampleDraw).2.2.1 (by norm_num [matchPointGame])

end Pong
